import Mathlib

/-
Verification of the WhatsApp-to-SIP voice gateway core: the SRTP key
extractor, the STUN engine, the media relay's demultiplexer and RTP
sequence-number path, and the call-signaling flows (offer, accept,
terminate).  Buffers are modelled as `List Nat` of byte values; JavaScript
`Map`s as association lists preserving insertion order; fallible code as
`Except`.
-/

deriving instance DecidableEq for Except

namespace Gateway

/-! ### Byte-level helpers (Buffer.writeUInt16BE / writeUInt32BE big-endian) -/

/-- Big-endian 16-bit encoding, as written by `Buffer.writeUInt16BE`. -/
def be16 (n : Nat) : List Nat := [n / 256 % 256, n % 256]

/-- Big-endian 32-bit encoding, as written by `Buffer.writeUInt32BE`. -/
def be32 (n : Nat) : List Nat :=
  [n / 16777216 % 256, n / 65536 % 256, n / 256 % 256, n % 256]

/-- `Buffer.copy` into a zero-filled region of length `len`
(`Buffer.alloc(len)` is zero-filled; copy writes at most `len` bytes). -/
def copyInto (len : Nat) (src : List Nat) : List Nat :=
  src.take len ++ List.replicate (len - src.length) 0

/-! ### Base64 decoding (`Buffer.from(s, 'base64')`)

Node's base64 decoder maps alphabet characters to 6-bit groups and ignores
characters outside the alphabet; a trailing group of a single character is
dropped.  `b64Val` maps a character code to its 6-bit value. -/

def b64Val (c : Nat) : Option Nat :=
  if 65 ≤ c ∧ c ≤ 90 then some (c - 65)
  else if 97 ≤ c ∧ c ≤ 122 then some (c - 97 + 26)
  else if 48 ≤ c ∧ c ≤ 57 then some (c - 48 + 52)
  else if c = 43 then some 62
  else if c = 47 then some 63
  else none

/-- Reassemble 6-bit groups into bytes (4 groups give 3 bytes; a trailing
group of 3 gives 2 bytes, of 2 gives 1 byte, of 1 gives nothing). -/
def b64Bytes : List Nat → List Nat
  | a :: b :: c :: d :: rest =>
      (a * 4 + b / 16) :: (b % 16 * 16 + c / 4) :: (c % 4 * 64 + d) :: b64Bytes rest
  | [a, b, c] => [a * 4 + b / 16, b % 16 * 16 + c / 4]
  | [a, b] => [a * 4 + b / 16]
  | _ => []

/-- Decode a list of character codes as base64.  When the source converts a
byte `Buffer` to a string first (`buf.toString()`), ASCII bytes map to the
character of the same code, which is the case exercised by the extractor's
40-byte re-decoding quirk. -/
def base64decode (chars : List Nat) : List Nat :=
  b64Bytes (chars.filterMap b64Val)

/-- Character codes of a Lean string, for base64-encoded string payloads. -/
def strCodes (s : String) : List Nat := s.toList.map Char.toNat

/-! ### Association-list model of JavaScript `Map`

`Map.set` replaces the value of an existing key in place (keeping its
insertion position) and appends a new key at the end; `Map.delete` removes
the key; `values().next().value` is the first value in insertion order. -/

def mapSet {α : Type} (m : List (String × α)) (k : String) (v : α) :
    List (String × α) :=
  match m with
  | [] => [(k, v)]
  | (k0, v0) :: rest =>
      if k0 = k then (k0, v) :: rest else (k0, v0) :: mapSet rest k v

def mapDelete {α : Type} (m : List (String × α)) (k : String) :
    List (String × α) :=
  m.filter fun p => p.1 != k

/-! ### Stanza tree model (decoded binary nodes)

A decoded stanza node has a `tag`, string attributes, and content that is
either a list of child nodes, a byte payload, or absent — modelled as a
closed variant (`node` / `bnode` / `enode`).  The source's single-object
content (`node.content.tag`) traverses identically to a one-element child
list, so it is folded into `node`. -/

inductive BTree where
  | node (tag : String) (attrs : List (String × String)) (children : List BTree)
  | bnode (tag : String) (attrs : List (String × String)) (payload : List Nat)
  | enode (tag : String) (attrs : List (String × String))

def BTree.tag : BTree → String
  | .node t _ _ => t
  | .bnode t _ _ => t
  | .enode t _ => t

def BTree.attrs : BTree → List (String × String)
  | .node _ a _ => a
  | .bnode _ a _ => a
  | .enode _ a => a

/-- The bytes `Buffer.from(node.content.data || node.content || [])` yields:
a byte payload is itself; `Buffer.from` of an array of child-node objects
coerces each object to `NaN` and hence to the byte 0; absent content gives
an empty buffer. -/
def contentBytes : BTree → List Nat
  | .node _ _ cs => List.replicate cs.length 0
  | .bnode _ _ bs => bs
  | .enode _ _ => []

/-- JS truthiness of `node.content`: arrays and buffers (even empty ones)
are truthy objects; `undefined` is falsy. -/
def contentTruthy : BTree → Bool
  | .enode _ _ => false
  | _ => true

/-! ### Relay/Token Extractor (key-extractor module) -/

structure RelayEndpoint where
  ip : String
  port : Nat
  token : Option (List Nat)
deriving DecidableEq

/-- Decoded protocol-buffer shapes that can carry bytes: a `Buffer` /
`Uint8Array` / plain number array / `{type:'Buffer',data:[..]}` wrapper
(all of which `Buffer.from` copies verbatim), a base64-encoded string, or
an unrecognized shape. -/
inductive ByteLike where
  | buf (bs : List Nat)
  | str (s : String)
  | other
deriving DecidableEq

def ByteLike.toBytes : ByteLike → Option (List Nat)
  | .buf bs => some bs
  | .str s => some (base64decode (strCodes s))
  | .other => none

inductive IpVal where
  | arr (ns : List Nat)
  | str (s : String)
deriving DecidableEq

/-- The ip join: an array ip is joined with dots, a string ip is kept. -/
def ipJoin : IpVal → String
  | .arr ns => String.intercalate "." (ns.map toString)
  | .str s => s

structure ProtoRelay where
  ip : Option IpVal
  port : Option Nat
  token : Option ByteLike
deriving DecidableEq

/-- The decoded-proto offer shape: `offer.call` with optional `callKey`
and `relays` fields. -/
structure ProtoCall where
  callKey : Option ByteLike
  relays : Option (List ProtoRelay)

/-- Extractor input: either a raw stanza node (no `.call` property) or a
decoded proto object carrying `.call`. -/
inductive Offer where
  | node (t : BTree)
  | protoObj (call : ProtoCall)

/-- `extractKeysFromDecryptedProto`: reads `decryptedJson?.call?.callKey`,
normalizes it to bytes (base64 string / tagged buffer / raw bytes), and on
a blob of at least 30 bytes returns `slice(0,16)` and `slice(16,30)`;
otherwise `null`.  An empty-string callKey is JS-falsy and also yields
`null`, which coincides with the length check. -/
def extractKeysFromDecryptedProto (offer : Offer) : Option (List Nat × List Nat) :=
  match offer with
  | .protoObj c =>
      match c.callKey with
      | some ck =>
          match ck.toBytes with
          | some callKey =>
              if 30 ≤ callKey.length then
                some (callKey.take 16, (callKey.drop 16).take 14)
              else none
          | none => none
      | none => none
  | .node _ => none

/-- `parseRelayEndpoint`: only a byte payload is a `Buffer`; 4 bytes of IP,
2 bytes big-endian port, optional trailing token bytes. -/
def ipv4String (bs : List Nat) : String :=
  toString (bs.getD 0 0) ++ "." ++ toString (bs.getD 1 0) ++ "." ++
    toString (bs.getD 2 0) ++ "." ++ toString (bs.getD 3 0)

def parseRelayEndpoint (item : BTree) : Option RelayEndpoint :=
  match item with
  | .bnode _ _ bs =>
      if 6 ≤ bs.length then
        some ⟨ipv4String bs, 256 * bs.getD 4 0 + bs.getD 5 0,
              if 6 < bs.length then some (bs.drop 6) else none⟩
      else none
  | _ => none

/-- Pass-1 action at one node: a `token` node with an `id` attribute and a
nonempty payload is recorded (`Map.set`) under its id. -/
def tokStep (acc : List (String × List Nat)) (tag : String)
    (attrs : List (String × String)) (bytes : List Nat) :
    List (String × List Nat) :=
  if tag = "token" then
    match List.lookup "id" attrs with
    | some id => if 0 < bytes.length then mapSet acc id bytes else acc
    | none => acc
  else acc

mutual

/-- Pass 1 (`collectTokens`): pre-order walk collecting every token
element into the id-keyed table. -/
def collectTokens (acc : List (String × List Nat)) : BTree → List (String × List Nat)
  | .node tg as cs => collectTokensList (tokStep acc tg as (List.replicate cs.length 0)) cs
  | .bnode tg as bs => tokStep acc tg as bs
  | .enode tg as => tokStep acc tg as []

def collectTokensList (acc : List (String × List Nat)) : List BTree → List (String × List Nat)
  | [] => acc
  | c :: cs => collectTokensList (collectTokens acc c) cs

end

/-- Pass-2 relay action: on a `te`/`relay` node, parse the fixed binary
layout; when no inline token is present and a `token_id` attribute exists,
resolve it against the pass-1 table (an unresolved id leaves the token
absent). -/
def relayAt (tokens : List (String × List Nat)) (t : BTree) : Option RelayEndpoint :=
  if t.tag = "te" ∨ t.tag = "relay" then
    match parseRelayEndpoint t with
    | some ep =>
        if ep.token.isNone then
          match List.lookup "token_id" t.attrs with
          | some tid => some { ep with token := List.lookup tid tokens }
          | none => some ep
        else some ep
    | none => none
  else none

/-- Pass-2 key action: a `hbh_key`/`enc`/`call-key` node with (truthy)
content whose bytes are at least 30 long is adopted as the key blob. -/
def keyAt (t : BTree) : Option (List Nat) :=
  if (t.tag = "hbh_key" ∨ t.tag = "enc" ∨ t.tag = "call-key") ∧ contentTruthy t then
    let b := contentBytes t
    if 30 ≤ b.length then some b else none
  else none

/-- Pass-2 visit of a single node: append any relay, and let a found key
blob override the previously held one (last one found wins). -/
def visit (tokens : List (String × List Nat))
    (acc : List RelayEndpoint × Option (List Nat)) (t : BTree) :
    List RelayEndpoint × Option (List Nat) :=
  let acc1 :=
    match relayAt tokens t with
    | some ep => (acc.1 ++ [ep], acc.2)
    | none => acc
  match keyAt t with
  | some b => (acc1.1, some b)
  | none => acc1

mutual

/-- Pass 2 (`traverse`): pre-order walk extracting relay endpoints and the
key blob. -/
def traverse (tokens : List (String × List Nat))
    (acc : List RelayEndpoint × Option (List Nat)) :
    BTree → List RelayEndpoint × Option (List Nat)
  | .node tg as cs => traverseList tokens (visit tokens acc (.node tg as cs)) cs
  | .bnode tg as bs => visit tokens acc (.bnode tg as bs)
  | .enode tg as => visit tokens acc (.enode tg as)

def traverseList (tokens : List (String × List Nat))
    (acc : List RelayEndpoint × Option (List Nat)) :
    List BTree → List RelayEndpoint × Option (List Nat)
  | [] => acc
  | c :: cs => traverseList tokens (traverse tokens acc c) cs

end

/-- Step-1 relay extraction from the proto object (`offer.call.relays`):
JS truthiness skips entries whose joined ip is empty or whose port is 0 or
absent. -/
def relaysFromProto (c : ProtoCall) : List RelayEndpoint :=
  (c.relays.getD []).filterMap fun r =>
    match r.ip, r.port with
    | some ipv, some p =>
        let ip := ipJoin ipv
        if ip ≠ "" ∧ p ≠ 0 then some ⟨ip, p, r.token.bind ByteLike.toBytes⟩
        else none
    | _, _ => none

/-- The traversal root: for a proto offer the source traverses
`offer.call`, a plain object with no `tag`/`content`, so both passes find
nothing there; for a raw node, the node itself is walked. -/
def passTokens : Offer → List (String × List Nat)
  | .node t => collectTokens [] t
  | .protoObj _ => []

def traverseResult : Offer → List RelayEndpoint × Option (List Nat)
  | .node t => traverse (collectTokens [] t) ([], none) t
  | .protoObj _ => ([], none)

/-- All relay endpoints pushed before the token-fallback step: the proto
relays (step 1) followed by the traversal relays (pass 2). -/
def collectedRelays (o : Offer) : List RelayEndpoint :=
  (match o with
   | .protoObj c => relaysFromProto c
   | .node _ => []) ++ (traverseResult o).1

def audioKeysOf (o : Offer) : Option (List Nat) := (traverseResult o).2

/-- Finalize the key material: an exactly-40-byte traversal blob is
reinterpreted as text and base64-decoded before the 16/14 split; when the
traversal found nothing usable, fall back to the decoded-proto helper
(only possible when the offer carries `.call`). -/
def keyResult (o : Offer) : Option (List Nat × List Nat) :=
  let fromTraversal :=
    match audioKeysOf o with
    | some b =>
        let kb := if b.length = 40 then base64decode b else b
        if 30 ≤ kb.length then some (kb.take 16, (kb.drop 16).take 14) else none
    | none => none
  match fromTraversal with
  | some p => some p
  | none =>
      match o with
      | .protoObj _ => extractKeysFromDecryptedProto o
      | .node _ => none

/-- Orphan-token fallback: when relays were found, the token table is
nonempty, and no relay carries a token, the first token in insertion order
is applied to every relay. -/
def finalRelays (o : Offer) : List RelayEndpoint :=
  let rs := collectedRelays o
  let toks := passTokens o
  if rs ≠ [] ∧ toks ≠ [] ∧ rs.all (fun r => r.token.isNone) then
    match toks.head? with
    | some kv => rs.map fun r => { r with token := some kv.2 }
    | none => rs
  else rs

structure ExtractedKeys where
  masterKey : List Nat
  masterSalt : List Nat
  relayEndpoints : List RelayEndpoint
deriving DecidableEq

/-- `extractSrtpKeys`: returns the finalized keys together with the relay
list, or `null` when no valid key material was found — in which case the
collected relay endpoints are not returned either. -/
def extractSrtpKeys (o : Offer) : Option ExtractedKeys :=
  match keyResult o with
  | some ks => some ⟨ks.1, ks.2, finalRelays o⟩
  | none => none

/-! ### STUN Engine (stun-client module) -/

namespace StunClient

/-- One round of the CRC-32 table computation:
`c = (c & 1) ? (0xEDB88320 ^ (c >>> 1)) : (c >>> 1)`. -/
def crcEntryStep (c : Nat) : Nat :=
  if c % 2 = 1 then 0xEDB88320 ^^^ (c >>> 1) else c >>> 1

/-- `CRC32_TABLE[i]`, computed on demand (the source memoizes all 256
entries; each is eight rounds of `crcEntryStep` applied to the index). -/
def crcEntry (i : Nat) : Nat := crcEntryStep^[8] i

/-- `crc32`: IEEE 802.3 reflected-polynomial CRC over the bytes. -/
def crc32 (buf : List Nat) : Nat :=
  (buf.foldl (fun crc b => (crc >>> 8) ^^^ crcEntry ((crc ^^^ b) % 256))
    0xFFFFFFFF) ^^^ 0xFFFFFFFF

/-- `readUInt16BE(off)`: raises `RangeError` when fewer than two bytes are
available at the offset. -/
def readUInt16BE (bs : List Nat) (off : Nat) : Except String Nat :=
  if off + 2 ≤ bs.length then .ok (256 * bs.getD off 0 + bs.getD (off + 1) 0)
  else .error "RangeError"

inductive StunRx where
  | bindingSuccess
  | bindingError (code : Option Nat)
  | other (t : Nat)
deriving DecidableEq

/-- `handleMessage`: classify an inbound STUN datagram.  `0x0101` is a
Binding Success; `0x0111` a Binding Error whose numeric code is read from
byte offset 26 whenever the message is longer than 20 bytes; anything else
is logged and ignored.  The unguarded `readUInt16BE` calls surface as
`Except.error`. -/
def handleMessage (msg : List Nat) : Except String StunRx := do
  let t ← readUInt16BE msg 0
  if t = 0x0101 then pure .bindingSuccess
  else if t = 0x0111 then
    if 20 < msg.length then do
      let e ← readUInt16BE msg (20 + 4 + 2)
      pure (.bindingError (some e))
    else pure (.bindingError none)
  else pure (.other t)

def padTo4 (n : Nat) : Nat := (4 - n % 4) % 4

/-- USERNAME (0x0006): value length unpadded in the length field, value
padded to 4-byte alignment.  `username` is the UTF-8 byte encoding of the
username string (`Buffer.from(username)`). -/
def usernameAttr (u : List Nat) : List Nat :=
  [0x00, 0x06] ++ be16 u.length ++ u ++ List.replicate (padTo4 u.length) 0

/-- ICE-CONTROLLED (0x8029): 8 random bytes (passed in, as the source
draws them from `crypto.randomBytes(8)`). -/
def iceControlledAttr (rand8 : List Nat) : List Nat :=
  [0x80, 0x29] ++ be16 8 ++ copyInto 8 rand8

/-- PRIORITY (0x0024): the fixed constant 1845494271. -/
def priorityAttr : List Nat := [0x00, 0x24] ++ be16 4 ++ be32 1845494271

/-- USE-CANDIDATE (0x0025): zero-length. -/
def useCandidateAttr : List Nat := [0x00, 0x25] ++ be16 0

/-- `sendBindingRequest`: builds the Binding Request datagram.
`hmacSha1 key msg` stands for the external `crypto.createHmac('sha1',
key)` primitive and `transactionId` for `crypto.randomBytes(12)`.

The header starts as the zero-filled `Buffer.alloc(20)` with only the
message type written; the magic cookie and transaction id are written into
it exclusively inside the MESSAGE-INTEGRITY branch, so when no token is
supplied those sixteen header bytes remain zero.  MESSAGE-INTEGRITY is
computed with the length field staged to the pre-fingerprint total;
FINGERPRINT with the true final length, XORed with 0x5354554e. -/
def sendBindingRequest (hmacSha1 : List Nat → List Nat → List Nat)
    (transactionId : List Nat) (rand8 : List Nat)
    (username : Option (List Nat)) (token : Option (List Nat))
    (useCandidate : Bool) : List Nat :=
  let attrs1 :=
    (match username with
     | some u => [usernameAttr u]
     | none => []) ++
    [iceControlledAttr rand8, priorityAttr] ++
    (if useCandidate then [useCandidateAttr] else [])
  let tid := copyInto 12 transactionId
  let attrs2 :=
    match token with
    | some tk =>
        let lenForHmac := (attrs1.map List.length).sum + 24
        let headerH := [0x00, 0x01] ++ be16 lenForHmac ++ be32 0x2112A442 ++ tid
        let sig := hmacSha1 tk (headerH ++ attrs1.flatten)
        attrs1 ++ [[0x00, 0x08] ++ be16 20 ++ copyInto 20 sig]
    | none => attrs1
  let cookieTid :=
    match token with
    | some _ => be32 0x2112A442 ++ tid
    | none => List.replicate 16 0
  let lenFinal := (attrs2.map List.length).sum + 8
  let headerF := [0x00, 0x01] ++ be16 lenFinal ++ cookieTid
  let crcVal := crc32 (headerF ++ attrs2.flatten)
  headerF ++ attrs2.flatten ++ ([0x80, 0x28] ++ be16 4 ++ be32 (crcVal ^^^ 0x5354554e))

end StunClient

/-! ### Media Relay (media-bridge module) -/

namespace MediaBridge

inductive DemuxClass where
  | stun
  | media
deriving DecidableEq

/-- `demux` classification: `first >= 0 && first <= 3` hands the datagram
to the STUN client, anything else is treated as SRTP/RTP media. -/
def demuxClassify (first : Nat) : DemuxClass :=
  if 0 ≤ first ∧ first ≤ 3 then .stun else .media

/-- `demux` routing including the failure mode: on a zero-length datagram
`msg[0]` is `undefined` and the debug line `first.toString(16)` raises a
`TypeError` before any classification happens. -/
def demuxRoute (msg : List Nat) : Except String DemuxClass :=
  match msg with
  | [] => .error "TypeError: first is undefined"
  | b :: _ => .ok (demuxClassify b)

/-- The shared outbound send path's sequence update:
`this.outSeq = (this.outSeq + 1) % 65535`. -/
def sendRtpSeqStep (outSeq : Nat) : Nat := (outSeq + 1) % 65535

/-- Sequence number carried by the n-th packet sent through `sendRtp`
(forwarded audio and injected silence share this path), starting from the
initial sequence `s0`: the packet is built with the current `outSeq`,
which is then stepped. -/
def outSeqAt (s0 : Nat) : Nat → Nat
  | 0 => s0
  | n + 1 => sendRtpSeqStep (outSeqAt s0 n)

end MediaBridge

/-! ### Call signaling (WhatsAppClient / CallHandler / CallBridge)

The signaling stanzas this model tracks.  Media, STUN, and SIP side
effects carry no signaling stanzas and are out of scope here. -/

inductive Stanza where
  | ringing (callId : String)
  | receipt (callId : String)
  | reject (callId : String)
  | preaccept (callId : String)
  | accept (callId : String)
  | ready (callId : String)
  | terminate (callId : String)
deriving DecidableEq

def isRinging : Stanza → Bool
  | .ringing _ => true
  | _ => false

def isReceipt : Stanza → Bool
  | .receipt _ => true
  | _ => false

def isAcceptStanza : Stanza → Bool
  | .accept _ => true
  | _ => false

def isReadyStanza : Stanza → Bool
  | .ready _ => true
  | _ => false

/-- The per-call entry of `WhatsAppClient.callState`. -/
structure CallFlowState where
  gotTransport : Bool
  gotRelay : Bool
  accepted : Bool
deriving DecidableEq

namespace WhatsAppClient

/-- `WhatsAppClient.acceptCall` on the success path: when the session's
state entry exists and is already accepted, return without sending; else
send PREACCEPT, (after the fixed settling delay) ACCEPT, then READY, and
mark the entry accepted — the marking is guarded by `if (state)`, so with
no state entry the stanzas are sent but nothing is marked. -/
def acceptCall (st : List (String × CallFlowState)) (callId : String) :
    List Stanza × List (String × CallFlowState) :=
  match List.lookup callId st with
  | some s =>
      if s.accepted then ([], st)
      else ([.preaccept callId, .accept callId, .ready callId],
            mapSet st callId { s with accepted := true })
  | none => ([.preaccept callId, .accept callId, .ready callId], st)

end WhatsAppClient

/-- The call event delivered with an offer (`CallEvent`). -/
structure CallEvt where
  callId : String
  fromJid : String
  isVideo : Bool
deriving DecidableEq

namespace CallHandler

/-- `CallHandler.endCall`: look up the session for a remote JID fallback,
attempt the TERMINATE send inside try/catch (its failure, `sendResult =
.error`, is swallowed), then unconditionally delete the registry entry and
emit `call:ended`.  Returns (new registry, endedEmitted, terminateSent). -/
def endCall (reg : List (String × CallEvt)) (callId : String)
    (fromJid : Option String) (sendResult : Except Unit Unit) :
    List (String × CallEvt) × Bool × Bool :=
  let call := List.lookup callId reg
  let remoteJid := fromJid.orElse fun _ => call.map (·.fromJid)
  let terminateSent :=
    remoteJid.isSome && (match sendResult with
      | .ok _ => true
      | .error _ => false)
  (mapDelete reg callId, true, terminateSent)

end CallHandler

/-- Joint state of the signaling components that the offer pipeline
touches: `WhatsAppClient.callState` and `CallHandler.activeCalls`. -/
structure SysState where
  callState : List (String × CallFlowState)
  activeCalls : List (String × CallEvt)
deriving DecidableEq

/-- Processing of one inbound offer event, following source order across
the three components (asynchronous interleaving of the individual sends is
abstracted into this fixed order; it does not affect which stanzas are
sent):

1. `WhatsAppClient` (call event, status `offer`): create the
   `callState` entry, emit `call:offer`.
2. `CallHandler`'s `call:offer` listener: register the call in
   `activeCalls`, emit `call:incoming` (which schedules
   `CallBridge.bridgeCall` — before the video check), send RINGING and the
   call receipt, and if `isVideo` send the reject and drop the
   `activeCalls` entry.
3. `WhatsAppClient`, after the emit: send its own RINGING and receipt.
4. The scheduled `CallBridge.bridgeCall` (which never looks at `isVideo`):
   after media setup it invokes `CallHandler.acceptCall`, which delegates
   to `WhatsAppClient.acceptCall`. -/
def processOffer (c : CallEvt) (st : SysState) : List Stanza × SysState :=
  let cs := mapSet st.callState c.callId ⟨false, false, false⟩
  let ac := mapSet st.activeCalls c.callId c
  let handlerOut :=
    [Stanza.ringing c.callId, Stanza.receipt c.callId] ++
      (if c.isVideo then [Stanza.reject c.callId] else [])
  let ac := if c.isVideo then mapDelete ac c.callId else ac
  let clientOut := [Stanza.ringing c.callId, Stanza.receipt c.callId]
  let bridged := WhatsAppClient.acceptCall cs c.callId
  (handlerOut ++ clientOut ++ bridged.1, ⟨bridged.2, ac⟩)

/-! ### Concrete inputs used by the counterexamples and failing-input
evaluations -/

/-- A 40-byte key blob of ASCII `A` characters (byte 65). -/
def blob40 : List Nat := List.replicate 40 65

/-- An offer stanza carrying one relay candidate (`te` node: ip 10.0.0.1,
port 8000, no trailing token bytes) and no key material at all. -/
def relayOnlyOffer : Offer :=
  .node (.node "offer" [] [.bnode "te" [] [10, 0, 0, 1, 31, 64]])

/-- Stand-in for the external HMAC-SHA1 primitive; the no-token build path
never invokes it. -/
def hmacStub : List Nat → List Nat → List Nat := fun _ _ => List.replicate 20 0

/-- A fixed 12-byte transaction id. -/
def stunTid : List Nat := [1, 2, 3, 4, 5, 6, 7, 8, 9, 10, 11, 12]

/-- Fixed ICE-CONTROLLED randomness. -/
def stunRand8 : List Nat := [21, 22, 23, 24, 25, 26, 27, 28]

/-- The Binding Request datagram built with no username and no token. -/
def stunPktNoToken : List Nat :=
  StunClient.sendBindingRequest hmacStub stunTid stunRand8 none none false

/-- A 22-byte Binding Error response (type 0x0111) with truncated
attributes: longer than 20 bytes, but too short for the error-code read at
offset 26. -/
def bindingErrTrunc : List Nat := 1 :: 17 :: List.replicate 20 0

/-- An inbound video-call offer event. -/
def videoOfferEvt : CallEvt := ⟨"call-1", "5511999@s.whatsapp.net", true⟩

/-! ### Helper lemmas -/

theorem lookup_mapSet {α : Type} (m : List (String × α)) (k : String) (v : α) :
    List.lookup k (mapSet m k v) = some v := by
  induction m with
  | nil => simp [mapSet, List.lookup]
  | cons hd tl ih =>
      obtain ⟨k0, v0⟩ := hd
      unfold mapSet
      by_cases h : k0 = k
      · subst h
        simp [List.lookup]
      · have hne : (k == k0) = false := by
          simp [beq_eq_false_iff_ne]
          exact fun he => h he.symm
        simp [h, List.lookup, hne, ih]

theorem lookup_mapDelete {α : Type} (m : List (String × α)) (k : String) :
    List.lookup k (mapDelete m k) = none := by
  induction m with
  | nil => simp [mapDelete, List.lookup]
  | cons hd tl ih =>
      obtain ⟨k0, v0⟩ := hd
      unfold mapDelete at ih ⊢
      by_cases h : k0 = k
      · simp [List.filter, h, ih]
      · have hne : (k0 != k) = true := by simp [bne_iff_ne]; exact h
        have hne2 : (k == k0) = false := by
          simp [beq_eq_false_iff_ne]
          exact fun he => h he.symm
        simp [List.filter, hne, List.lookup, hne2, ih]

theorem outSeqAt_closed (s0 : Nat) (h : s0 < 65535) :
    ∀ n, MediaBridge.outSeqAt s0 n = (s0 + n) % 65535 := by
  intro n
  induction n with
  | zero => simp [MediaBridge.outSeqAt, Nat.mod_eq_of_lt h]
  | succ n ih =>
      simp only [MediaBridge.outSeqAt, MediaBridge.sendRtpSeqStep, ih]
      omega

theorem traverse_callkey (bs : List Nat) :
    traverse [] ([], none) (.bnode "call-key" [] bs) =
      ([], if 30 ≤ bs.length then some bs else none) := by
  by_cases h : 30 ≤ bs.length <;>
    simp [traverse, visit, relayAt, keyAt, parseRelayEndpoint, BTree.tag,
      BTree.attrs, contentTruthy, contentBytes, h]

theorem collectTokens_callkey (bs : List Nat) :
    collectTokens [] (.bnode "call-key" [] bs) = [] := by
  simp [collectTokens, tokStep]

/-! ### Claims -/

/-- C1: On the decoded-proto `callKey` path, a blob of at least 30 bytes
splits into `masterKey = bytes[0:16]` and `masterSalt = bytes[16:30]` and a
shorter blob yields null (first conjunct).  On the stanza-traversal path
the same split holds for every blob of length at least 30 — except blobs
of exactly 40 bytes, which the code first reinterprets as base64 text
(second conjunct, the amended part) — and a blob shorter than 30 bytes is
not adopted, so the extractor returns null (third conjunct). -/
theorem extractKeys_split_per_path :
    (∀ bs : List Nat,
      extractKeysFromDecryptedProto (.protoObj ⟨some (.buf bs), none⟩) =
        if 30 ≤ bs.length then some (bs.take 16, (bs.drop 16).take 14)
        else none) ∧
    (∀ bs : List Nat, 30 ≤ bs.length → bs.length ≠ 40 →
      extractSrtpKeys (.node (.bnode "call-key" [] bs)) =
        some ⟨bs.take 16, (bs.drop 16).take 14, []⟩) ∧
    (∀ bs : List Nat, bs.length < 30 →
      extractSrtpKeys (.node (.bnode "call-key" [] bs)) = none) := by
  refine ⟨fun bs => rfl, fun bs h30 h40 => ?_, fun bs h => ?_⟩
  · simp [extractSrtpKeys, keyResult, audioKeysOf, traverseResult,
      traverse_callkey, collectTokens_callkey, finalRelays, collectedRelays,
      passTokens, h30, h40]
  · simp [extractSrtpKeys, keyResult, audioKeysOf, traverseResult,
      traverse_callkey, collectTokens_callkey, Nat.not_le.mpr h]

/-- C1 witness: the three parts of `extractKeys_split_per_path` evaluated
at a 30-byte proto blob, a 32-byte traversal blob, and a 10-byte traversal
blob. -/
theorem extractKeys_split_per_path_witness :
    (extractKeysFromDecryptedProto (.protoObj ⟨some (.buf (List.range 30)), none⟩) =
      if 30 ≤ (List.range 30).length then
        some ((List.range 30).take 16, ((List.range 30).drop 16).take 14)
      else none) ∧
    (extractSrtpKeys (.node (.bnode "call-key" [] (List.range 32))) =
      some ⟨(List.range 32).take 16, ((List.range 32).drop 16).take 14, []⟩) ∧
    extractSrtpKeys (.node (.bnode "call-key" [] (List.replicate 10 7))) = none :=
  ⟨extractKeys_split_per_path.1 (List.range 30),
   extractKeys_split_per_path.2.1 (List.range 32) (by decide) (by decide),
   extractKeys_split_per_path.2.2 (List.replicate 10 7) (by decide)⟩

/-- C1 counterexample: a 40-byte key blob (forty ASCII `A` bytes) found on
the traversal path is not split directly; it is reinterpreted as base64
text and decodes to thirty zero bytes, so the returned master key differs
from the blob's first 16 bytes. -/
theorem extractKeys_blob40_counterexample :
    extractSrtpKeys (.node (.bnode "call-key" [] blob40)) =
      some ⟨List.replicate 16 0, List.replicate 14 0, []⟩ ∧
    List.replicate 16 0 ≠ blob40.take 16 := by decide

/-- C2 (failing-input evaluation): with no token supplied, the built
Binding Request's type and length fields are correct (0x0001, 28), but
header bytes 4..7 — the magic-cookie field — are zero rather than
0x2112A442, and bytes 8..19 — the transaction-id field — are zero rather
than the supplied transaction id: the cookie and id are written only
inside the MESSAGE-INTEGRITY branch. -/
theorem sendBindingRequest_notoken_header_zero :
    stunPktNoToken.length = 48 ∧
    stunPktNoToken.take 4 = [0, 1, 0, 28] ∧
    (stunPktNoToken.drop 4).take 4 = [0, 0, 0, 0] ∧
    (stunPktNoToken.drop 4).take 4 ≠ be32 0x2112A442 ∧
    (stunPktNoToken.drop 8).take 12 ≠ stunTid := by decide

/-- C3 (amended): when the extractor finds relay candidates but no valid
key material, `extractSrtpKeys` returns plain null — the collected relay
candidates are discarded, not returned alongside a null key result. -/
theorem extractSrtpKeys_null_discards_relays (o : Offer)
    (_hrel : finalRelays o ≠ []) (hkey : keyResult o = none) :
    extractSrtpKeys o = none := by
  simp [extractSrtpKeys, hkey]

/-- C3 witness: `extractSrtpKeys_null_discards_relays` applied to the
relay-only offer. -/
theorem extractSrtpKeys_null_discards_relays_witness :
    extractSrtpKeys relayOnlyOffer = none :=
  extractSrtpKeys_null_discards_relays relayOnlyOffer (by decide) (by decide)

/-- C3 counterexample: on the relay-only offer the extractor collects
exactly one relay candidate (10.0.0.1:8000), yet returns null with no
relay list rather than the candidates plus a null key. -/
theorem extractSrtpKeys_relays_lost_counterexample :
    finalRelays relayOnlyOffer = [⟨"10.0.0.1", 8000, none⟩] ∧
    extractSrtpKeys relayOnlyOffer = none := by decide

/-- C4 (failing-input evaluation): the send path steps the sequence with
`(outSeq + 1) % 65535`, so starting from 0 the packet at index 65535
carries sequence 0 again — a repeat within one 65536-packet window — and
not the value 65535 that reduction modulo 65536 prescribes. -/
theorem outSeq_wraps_65535_not_65536 :
    MediaBridge.outSeqAt 0 65535 = MediaBridge.outSeqAt 0 0 ∧
    MediaBridge.outSeqAt 0 65535 ≠ (0 + 65535) % 65536 := by
  have h := outSeqAt_closed 0 (by norm_num)
  refine ⟨?_, ?_⟩
  · rw [h 65535, h 0]
  · rw [h 65535]
    decide

/-- C5: the demultiplexer classifies every first-byte value exhaustively:
0..3 inclusive is handed to the STUN client, every other byte value is
treated as SRTP/RTP media, and routing a nonempty datagram applies exactly
this classification to its first byte. -/
theorem demux_first_byte_classification :
    (∀ b : Nat, b ≤ 3 → MediaBridge.demuxClassify b = .stun) ∧
    (∀ b : Nat, 4 ≤ b → b ≤ 255 → MediaBridge.demuxClassify b = .media) ∧
    (∀ (b : Nat) (rest : List Nat),
      MediaBridge.demuxRoute (b :: rest) = .ok (MediaBridge.demuxClassify b)) ∧
    (∀ b : Nat, MediaBridge.demuxClassify b = .stun ∨
      MediaBridge.demuxClassify b = .media) := by
  refine ⟨fun b h => ?_, fun b h4 _ => ?_, fun b rest => rfl, fun b => ?_⟩
  · unfold MediaBridge.demuxClassify
    rw [if_pos ⟨Nat.zero_le b, h⟩]
  · unfold MediaBridge.demuxClassify
    rw [if_neg (by omega)]
  · unfold MediaBridge.demuxClassify
    by_cases h : 0 ≤ b ∧ b ≤ 3
    · rw [if_pos h]; exact Or.inl rfl
    · rw [if_neg h]; exact Or.inr rfl

/-- C5 witness: the classification evaluated at first bytes 3, 4 and a
routed media datagram. -/
theorem demux_first_byte_classification_witness :
    MediaBridge.demuxClassify 3 = .stun ∧
    MediaBridge.demuxClassify 4 = .media ∧
    MediaBridge.demuxRoute [200, 1] = .ok MediaBridge.DemuxClass.media := by
  have h := demux_first_byte_classification
  refine ⟨h.1 3 (by norm_num), h.2.1 4 (by norm_num) (by norm_num), ?_⟩
  rw [h.2.2.1 200 [1], h.2.1 200 (by norm_num) (by norm_num)]

/-- C6: the accept flow is idempotent for a registered call session: from
an unaccepted session the first invocation sends exactly the
PREACCEPT/ACCEPT/READY sequence and the second invocation sends nothing,
so across both invocations exactly one ACCEPT and one READY stanza go
out. -/
theorem acceptCall_idempotent (st : List (String × CallFlowState))
    (cid : String) (s : CallFlowState) (hlk : List.lookup cid st = some s)
    (hacc : s.accepted = false) :
    (WhatsAppClient.acceptCall st cid).1 =
      [Stanza.preaccept cid, Stanza.accept cid, Stanza.ready cid] ∧
    (WhatsAppClient.acceptCall (WhatsAppClient.acceptCall st cid).2 cid).1 = [] ∧
    ((WhatsAppClient.acceptCall st cid).1 ++
        (WhatsAppClient.acceptCall (WhatsAppClient.acceptCall st cid).2 cid).1).countP
      isAcceptStanza = 1 ∧
    ((WhatsAppClient.acceptCall st cid).1 ++
        (WhatsAppClient.acceptCall (WhatsAppClient.acceptCall st cid).2 cid).1).countP
      isReadyStanza = 1 := by
  have h1 : WhatsAppClient.acceptCall st cid =
      ([Stanza.preaccept cid, Stanza.accept cid, Stanza.ready cid],
        mapSet st cid { s with accepted := true }) := by
    unfold WhatsAppClient.acceptCall
    rw [hlk]
    simp [hacc]
  have h2 : WhatsAppClient.acceptCall (mapSet st cid { s with accepted := true }) cid =
      ([], mapSet st cid { s with accepted := true }) := by
    unfold WhatsAppClient.acceptCall
    rw [lookup_mapSet]
    simp
  rw [h1]
  simp [h2, List.countP_cons, isAcceptStanza, isReadyStanza, List.countP_append]

/-- C6 witness: `acceptCall_idempotent` at the one-session state with call
id `c1`. -/
theorem acceptCall_idempotent_witness :
    (WhatsAppClient.acceptCall [("c1", ⟨false, false, false⟩)] "c1").1 =
      [Stanza.preaccept "c1", Stanza.accept "c1", Stanza.ready "c1"] ∧
    (WhatsAppClient.acceptCall
      (WhatsAppClient.acceptCall [("c1", ⟨false, false, false⟩)] "c1").2 "c1").1 = [] ∧
    ((WhatsAppClient.acceptCall [("c1", ⟨false, false, false⟩)] "c1").1 ++
        (WhatsAppClient.acceptCall
          (WhatsAppClient.acceptCall [("c1", ⟨false, false, false⟩)] "c1").2 "c1").1).countP
      isAcceptStanza = 1 ∧
    ((WhatsAppClient.acceptCall [("c1", ⟨false, false, false⟩)] "c1").1 ++
        (WhatsAppClient.acceptCall
          (WhatsAppClient.acceptCall [("c1", ⟨false, false, false⟩)] "c1").2 "c1").1).countP
      isReadyStanza = 1 :=
  acceptCall_idempotent [("c1", ⟨false, false, false⟩)] "c1"
    ⟨false, false, false⟩ (by decide) rfl

/-- C7 (failing-input evaluation): for an inbound video offer the REJECT
stanza is sent and the session is removed from the active-call registry,
but — because `call:incoming` is emitted before the video check and the
bridge's accept flow never inspects `isVideo` — a PREACCEPT stanza is also
sent for that call id. -/
theorem videoOffer_sends_preaccept :
    Stanza.reject "call-1" ∈ (processOffer videoOfferEvt ⟨[], []⟩).1 ∧
    List.lookup "call-1" (processOffer videoOfferEvt ⟨[], []⟩).2.activeCalls = none ∧
    Stanza.preaccept "call-1" ∈ (processOffer videoOfferEvt ⟨[], []⟩).1 := by decide

/-- C8 (failing-input evaluation): a 22-byte Binding Error response passes
the `length > 20` guard but the error-code read at offset 26 is out of
range, so `handleMessage` raises instead of returning normally; likewise
the demultiplexer raises on a zero-length datagram before classifying
it. -/
theorem handleMessage_raises_on_truncated :
    StunClient.handleMessage bindingErrTrunc = .error "RangeError" ∧
    20 < bindingErrTrunc.length ∧
    MediaBridge.demuxRoute [] = .error "TypeError: first is undefined" := by decide

/-- C9: the end-call flow always removes the call from the active-call
registry and emits the call-ended event, whether or not the TERMINATE send
succeeded (the send failure is swallowed by the surrounding
try/catch). -/
theorem endCall_clears_state (reg : List (String × CallEvt)) (callId : String)
    (fromJid : Option String) (sendResult : Except Unit Unit) :
    List.lookup callId (CallHandler.endCall reg callId fromJid sendResult).1 = none ∧
    (CallHandler.endCall reg callId fromJid sendResult).2.1 = true := by
  unfold CallHandler.endCall
  exact ⟨lookup_mapDelete reg callId, rfl⟩

/-- C10: for every inbound offer event — audio or video — the offer
pipeline sends the RINGING stanza twice and the call receipt twice: once
from the call handler's offer listener and once from the client's own
offer branch right after emitting the event. -/
theorem offer_double_ringing (c : CallEvt) (st : SysState) :
    ((processOffer c st).1.countP isRinging) = 2 ∧
    ((processOffer c st).1.countP isReceipt) = 2 := by
  have hb : ∀ stc : List (String × CallFlowState),
      (WhatsAppClient.acceptCall stc c.callId).1.countP isRinging = 0 ∧
      (WhatsAppClient.acceptCall stc c.callId).1.countP isReceipt = 0 := by
    intro stc
    unfold WhatsAppClient.acceptCall
    cases hl : List.lookup c.callId stc with
    | none => simp [isRinging, isReceipt]
    | some s => by_cases h : s.accepted <;> simp [h, isRinging, isReceipt]
  unfold processOffer
  by_cases hv : c.isVideo <;>
    simp [hv, List.countP_append, List.countP_cons, isRinging, isReceipt,
      (hb _).1, (hb _).2]

end Gateway
